import Mathlib

/-!
Verification development for the personal-finance budget tracker.

The definitions below are a shallow embedding of the repository's core:
`src/database.py` (the `Database` class over SQLite),
`src/models/transaction.py` (the `Transaction` dataclass), and
`src/gui/year_comparison_window.py` (the year-over-year aggregation).

Modelling conventions:
* Python `Decimal` (and the SQLite `DECIMAL` columns it is written to) is
  modelled as `ℚ`, an exact type; `datetime` values are modelled at the
  second granularity of the store's canonical format `%Y-%m-%dT%H:%M:%S`.
* SQLite string comparison of ISO-8601 timestamps is modelled by comparing
  the numeric key `dtKey`, which orders timestamps exactly as the
  lexicographic comparison of their zero-padded ISO strings does for
  in-range field values.
* Python `str.lower()` / SQLite `LIKE` case folding is modelled by ASCII
  `Char.toLower` over the character list of the string.
* Each SQLite connection scope that commits on success and rolls back on an
  exception is modelled as a pure function returning the net new state (or
  an `Except.error` carrying the raised message).
-/

/-- ASCII lower-casing of a string, as its character list. Models Python
`str.lower()` and SQLite LIKE case folding on ASCII input. -/
def lowerL (s : String) : List Char := s.toList.map Char.toLower

/-- Decides whether `pat` is a leading segment of `hay`. -/
def listIsPfx : List Char → List Char → Bool
  | [], _ => true
  | _ :: _, [] => false
  | a :: as, b :: bs => a == b && listIsPfx as bs

/-- Decides whether `pat` occurs contiguously inside `hay`; models the
Python `in` operator on strings. -/
def containsSub (hay pat : List Char) : Bool :=
  listIsPfx pat hay ||
    match hay with
    | [] => false
    | _ :: t => containsSub t pat

/-- Case-insensitive substring test, models `pattern.lower() in
description.lower()` (database.py line 558) and the LIKE clause of
`auto_categorize_transaction` (database.py line 520) for strings free of
the LIKE metacharacters. -/
def likeMatches (description pat : String) : Bool :=
  containsSub (lowerL description) (lowerL pat)

/-- Calendar timestamp at the second granularity stored by the code
(`date.isoformat()` / `strptime "%Y-%m-%dT%H:%M:%S"`). -/
structure DateTime where
  year : Nat
  month : Nat
  day : Nat
  hour : Nat
  minute : Nat
  second : Nat
deriving DecidableEq, Repr

/-- Numeric key whose `Nat` order coincides, for in-range field values,
with lexicographic comparison of the zero-padded ISO-8601 strings the
store compares with SQL `<` and `>=`. -/
def dtKey (d : DateTime) : Nat :=
  d.second + 10000 * (d.minute + 10000 * (d.hour +
    10000 * (d.day + 10000 * (d.month + 10000 * d.year))))

/-- The `Transaction` dataclass of src/models/transaction.py. -/
structure Transaction where
  id : Option Nat
  date : DateTime
  amount : ℚ
  description : String
  category : String
  transaction_type : String
  ignored : Bool
deriving DecidableEq, Repr

/-- The `is_expense` property of src/models/transaction.py lines 18-21:
expense type (case-insensitively) and not ignored. -/
def is_expense (t : Transaction) : Bool :=
  (lowerL t.transaction_type == "expense".toList) && !t.ignored

/-- One row of the `categorization_rules` table (database.py lines 31-40):
pattern, category, optional amount, optional amount tolerance (the column
default is 0.01 and NULL is re-defaulted on read), priority. -/
structure Rule where
  pattern : String
  category : String
  amount : Option ℚ
  amount_tolerance : Option ℚ
  priority : Int
deriving DecidableEq, Repr

/-- The persistent store owned by the `Database` class: the
`transactions`, `categories` and `categorization_rules` tables, plus the
AUTOINCREMENT counter that yields `cursor.lastrowid`. Only the category
names of the `categories` table are modelled; `budget_goal` and `tags`
are untouched by the operations below. -/
structure DB where
  transactions : List Transaction
  categories : List String
  rules : List Rule
  nextId : Nat
deriving DecidableEq, Repr

/-- A store is well formed when every stored row id is below the
AUTOINCREMENT counter, as SQLite guarantees. -/
def WF (db : DB) : Prop :=
  ∀ t ∈ db.transactions, ∀ i, t.id = some i → i < db.nextId

def emptyDB : DB := ⟨[], [], [], 1⟩

/-- Ordering used by `ORDER BY priority DESC` (database.py lines 478,
549): higher priorities first. SQLite leaves the relative order of equal
priorities unspecified; the model fixes the stable insertion-sort order. -/
def ruleOrder (a b : Rule) : Prop := b.priority ≤ a.priority

instance : DecidableRel ruleOrder :=
  fun a b => inferInstanceAs (Decidable (b.priority ≤ a.priority))

instance : IsTotal Rule ruleOrder := ⟨fun a b => le_total b.priority a.priority⟩

instance : IsTrans Rule ruleOrder := ⟨fun _ _ _ h1 h2 => le_trans h2 h1⟩

/-- Ordering used by `ORDER BY date` on ISO strings (database.py line 310). -/
def dateAsc (a b : Transaction) : Prop := dtKey a.date ≤ dtKey b.date

instance : DecidableRel dateAsc :=
  fun a b => inferInstanceAs (Decidable (dtKey a.date ≤ dtKey b.date))

instance : IsTotal Transaction dateAsc := ⟨fun a b => le_total (dtKey a.date) (dtKey b.date)⟩

instance : IsTrans Transaction dateAsc := ⟨fun _ _ _ h1 h2 => le_trans h1 h2⟩

/-- Ordering used by `ORDER BY date DESC` (database.py line 95). -/
def dateDesc (a b : Transaction) : Prop := dtKey b.date ≤ dtKey a.date

instance : DecidableRel dateDesc :=
  fun a b => inferInstanceAs (Decidable (dtKey b.date ≤ dtKey a.date))

instance : IsTotal Transaction dateDesc := ⟨fun a b => le_total (dtKey b.date) (dtKey a.date)⟩

instance : IsTrans Transaction dateDesc := ⟨fun _ _ _ h1 h2 => le_trans h2 h1⟩

/-- Ordering used by Python `sorted` over category-name strings
(database.py line 258). -/
def stringAsc (a b : String) : Prop := a ≤ b

instance : DecidableRel stringAsc :=
  fun a b => inferInstanceAs (Decidable (a ≤ b))

instance : IsTotal String stringAsc := ⟨fun a b => le_total a b⟩

instance : IsTrans String stringAsc := ⟨fun _ _ _ h1 h2 => le_trans h1 h2⟩

/-- `Database.add_transaction` (database.py lines 71-85): the INSERT
names only (date, amount, description, category, transaction_type), so
the `ignored` column takes its schema DEFAULT 0; the assigned
`cursor.lastrowid` is returned. -/
def add_transaction (db : DB) (t : Transaction) : DB × Nat :=
  ({ db with
      transactions := db.transactions ++ [{ t with id := some db.nextId, ignored := false }],
      nextId := db.nextId + 1 },
   db.nextId)

/-- `Database.get_transactions` (database.py lines 87-110): every row,
ordered by date descending. -/
def get_transactions (db : DB) : List Transaction :=
  List.insertionSort dateDesc db.transactions

/-- Start bound of `get_transactions_for_month`: `date.replace(day=1)`
(database.py line 298). Note the hour, minute and second of the query
date are kept. -/
def monthStart (d : DateTime) : DateTime := { d with day := 1 }

/-- End bound of `get_transactions_for_month` (database.py lines
299-302): first day of the next month, rolling December into January of
the next year, again keeping the query date's time of day. -/
def monthEnd (d : DateTime) : DateTime :=
  if d.month = 12 then { d with year := d.year + 1, month := 1, day := 1 }
  else { d with month := d.month + 1, day := 1 }

/-- `Database.get_transactions_for_month` (database.py lines 289-324):
rows with `date >= start AND date < end`, ordered by date ascending. -/
def get_transactions_for_month (db : DB) (d : DateTime) : List Transaction :=
  List.insertionSort dateAsc
    (db.transactions.filter (fun t =>
      decide (dtKey (monthStart d) ≤ dtKey t.date) &&
      decide (dtKey t.date < dtKey (monthEnd d))))

/-- The WHERE clause of `Database.update_transaction_by_attributes`
(database.py lines 418-431): equality on date, amount, description and
transaction_type; the current category is not part of the match. -/
def matchTuple (d : DateTime) (a : ℚ) (desc ty : String) (t : Transaction) : Bool :=
  t.date == d && t.amount == a && t.description == desc && t.transaction_type == ty

/-- `INSERT OR IGNORE INTO categories (name) VALUES (?)` (database.py
lines 411-414): registers the name unless already present. -/
def insertOrIgnoreCategory (cats : List String) (c : String) : List String :=
  if c ∈ cats then cats else cats ++ [c]

/-- `Database.update_transaction_by_attributes` (database.py lines
388-439): registers the new category, updates every row matching the
attribute tuple, and raises when `cursor.rowcount` is zero. The raise
happens after the category INSERT, but the connection scope rolls the
INSERT back on the exception, so the net effect of the failing path is
no state change, as modelled. -/
def update_transaction_by_attributes (db : DB) (d : DateTime) (a : ℚ)
    (desc cat ty : String) : Except String DB :=
  if (db.transactions.filter (matchTuple d a desc ty)).length = 0 then
    Except.error "No matching transaction found"
  else
    Except.ok { db with
      categories := insertOrIgnoreCategory db.categories cat,
      transactions := db.transactions.map (fun t =>
        if matchTuple d a desc ty t then { t with category := cat } else t) }

/-- `Database.delete_category` (database.py lines 260-269): deletes the
name from the `categories` table only. -/
def delete_category (db : DB) (name : String) : DB :=
  { db with categories := db.categories.filter (fun c => !(c == name)) }

/-- Membership of a character in Python's ASCII whitespace, as stripped
by `str.strip()`. -/
def isPySpace (c : Char) : Bool :=
  c == ' ' || c == '\t' || c == '\n' || c == '\r' || c == '\x0b' || c == '\x0c'

/-- Truthiness of `cat and cat.strip()` (database.py line 255): the
string is nonempty and does not consist solely of whitespace. -/
def pyNonBlank (s : String) : Bool := s.toList.any (fun c => !(isPySpace c))

/-- `Database.get_all_categories` (database.py lines 235-258): the union
of the names in the `categories` table and the distinct `category`
values on transactions, with blank names dropped, sorted. -/
def get_all_categories (db : DB) : List String :=
  List.insertionSort stringAsc
    (((db.categories ++ db.transactions.map Transaction.category).filter pyNonBlank).dedup)

/-- `Database.auto_categorize_transaction` (database.py lines 505-525):
the category of the first rule, in priority-descending order, whose
pattern occurs case-insensitively in the description. The SQL consults
no amount column at all; the function does not even receive an amount. -/
def auto_categorize_transaction (db : DB) (description : String) : Option String :=
  ((List.insertionSort ruleOrder db.rules).find? (fun r =>
    likeMatches description r.pattern)).map Rule.category

/-- Modelled from the spec: the `resolve(description, amount)` algorithm
of section 4.3, which claim C1 asserts `auto_categorize_transaction`
implements — a rule matches when its pattern occurs case-insensitively
in the description and, when the rule carries an amount, the given
amount is within the rule's tolerance of it. Kept only to compare the
claim's wording against the code-derived definition above. -/
def resolveSpec (rules : List Rule) (description : String) (amount : Option ℚ) : Option String :=
  ((List.insertionSort ruleOrder rules).find? (fun r =>
    likeMatches description r.pattern &&
      (match r.amount with
       | none => true
       | some ra =>
          match amount with
          | some a => decide (|a - ra| ≤ r.amount_tolerance.getD (1/100))
          | none => false))).map Rule.category

/-- The per-rule test of `apply_rules_to_existing_transactions`
(database.py lines 556-566): pattern substring match, and when the rule
carries an amount, `abs(trans_amount - rule_amount) <= tolerance` with a
NULL tolerance re-defaulted to 0.01. -/
def ruleMatchesTrans (r : Rule) (t : Transaction) : Bool :=
  likeMatches t.description r.pattern &&
    (match r.amount with
     | none => true
     | some ra => decide (|t.amount - ra| ≤ r.amount_tolerance.getD (1/100)))

/-- One iteration of the transaction loop of
`apply_rules_to_existing_transactions` (database.py lines 555-575): the
first matching rule, in priority-descending order, unconditionally
overwrites the category and bumps `updates_made`; without a match the
row is untouched. -/
def applyStep (rules : List Rule) (t : Transaction) : Transaction × Bool :=
  match (List.insertionSort ruleOrder rules).find? (fun r => ruleMatchesTrans r t) with
  | some r => ({ t with category := r.category }, true)
  | none => (t, false)

/-- `Database.apply_rules_to_existing_transactions` (database.py lines
527-578): snapshots all transactions and all rules, applies `applyStep`
to every transaction, commits, and prints `updates_made` — returned here
as the second component. -/
def apply_rules_to_existing_transactions (db : DB) : DB × Nat :=
  let stepped := db.transactions.map (applyStep db.rules)
  ({ db with transactions := stepped.map Prod.fst },
   (stepped.filter Prod.snd).length)

/-- Shape of the `categorization_rules` table as seen by the migration
probe of `Database._create_tables`: whether the column set contains
`amount`, and the stored rows. -/
structure RulesTable where
  hasAmountColumn : Bool
  rows : List Rule
deriving Repr

/-- On-disk schema state before/after `Database._create_tables`:
`rulesTable = none` models a database in which the
`categorization_rules` table does not exist (its `PRAGMA table_info`
yields no columns). -/
structure Schema where
  rulesTable : Option RulesTable
  hasTransactionsTable : Bool
  hasCategoriesTable : Bool
deriving Repr

/-- A completely fresh store: no tables yet. -/
def freshSchema : Schema := ⟨none, false, false⟩

/-- `Database._create_tables` (database.py lines 15-69). When the
`amount` column is absent from `categorization_rules` — which is also
the case when the table does not exist, since `PRAGMA table_info`
returns no rows then — the code first runs `SELECT pattern, category,
priority FROM categorization_rules`; on a missing table that statement
raises `sqlite3.OperationalError: no such table: categorization_rules`,
modelled as the error value. Otherwise the table is dropped and
recreated with the new shape and the saved rows are reinserted with
amount NULL and the tolerance column DEFAULT 0.01; finally the
`transactions` and `categories` tables are created IF NOT EXISTS. -/
def createTables (s : Schema) : Except String Schema :=
  let hasAmount := match s.rulesTable with
    | none => false
    | some rt => rt.hasAmountColumn
  if hasAmount then
    Except.ok { s with hasTransactionsTable := true, hasCategoriesTable := true }
  else
    match s.rulesTable with
    | none => Except.error "no such table: categorization_rules"
    | some rt =>
        Except.ok
          { rulesTable := some ⟨true, rt.rows.map (fun r =>
              { pattern := r.pattern, category := r.category,
                amount := none, amount_tolerance := some (1/100),
                priority := r.priority })⟩,
            hasTransactionsTable := true,
            hasCategoriesTable := true }

/-- Field-wise equality of two transactions with the id ignored, the
comparison claim C5 makes between a round-tripped row and its input. -/
def eqExceptId (a b : Transaction) : Bool :=
  a.date == b.date && a.amount == b.amount && a.description == b.description &&
    a.category == b.category && a.transaction_type == b.transaction_type &&
    a.ignored == b.ignored

/-- Per-category expense totals of
`YearComparisonWindow._calculate_category_totals`
(year_comparison_window.py lines 71-77), read off at one category: the
sum of the amounts of the expense-type, non-ignored transactions carrying
that category. -/
def calcCategoryTotal (txs : List Transaction) (c : String) : ℚ :=
  ((txs.filter (fun t => is_expense t && t.category == c)).map Transaction.amount).sum

/-- Grand total `sum(totals.values())` of
`YearComparisonWindow._refresh_comparison` (year_comparison_window.py
lines 97-98): summing the per-category dictionary's values amounts to
summing every expense-type, non-ignored transaction. -/
def calcGrandTotal (txs : List Transaction) : ℚ :=
  ((txs.filter is_expense).map Transaction.amount).sum

/-- A percent-change cell: either the sentinel string "N/A" or a
formatted numeric percentage. -/
inductive PctDisplay where
  | na : PctDisplay
  | pct : ℚ → PctDisplay
deriving DecidableEq, Repr

/-- The per-category percent-change cell of `_refresh_comparison`
(year_comparison_window.py lines 102-111): `(difference / last_year) *
100` when the prior-year amount is nonzero, the string "N/A" otherwise. -/
def categoryPctChange (lastTxs thisTxs : List Transaction) (c : String) : PctDisplay :=
  let lastA := calcCategoryTotal lastTxs c
  let thisA := calcCategoryTotal thisTxs c
  if lastA ≠ 0 then PctDisplay.pct ((thisA - lastA) / lastA * 100) else PctDisplay.na

/-- The summary percent-change label of `_refresh_comparison`
(year_comparison_window.py line 123): `((this / last) - 1) * 100` when
the prior-year grand total is nonzero and the number 0 otherwise — the
label is always formatted as a percentage, never as "N/A". -/
def totalPctChange (lastTxs thisTxs : List Transaction) : PctDisplay :=
  let lastT := calcGrandTotal lastTxs
  let thisT := calcGrandTotal thisTxs
  PctDisplay.pct (if lastT ≠ 0 then (thisT / lastT - 1) * 100 else 0)

/-- Modelled from the spec: the half-open month window of section 4.2,
`[first instant of the month of d, first instant of the next month)` —
the bounds claim C6 asserts for `get_transactions_for_month`. -/
def claimMonthStart (d : DateTime) : DateTime := ⟨d.year, d.month, 1, 0, 0, 0⟩

/-- Modelled from the spec: end bound of the claimed month window, with
December rolling into January of the following year. -/
def claimMonthEnd (d : DateTime) : DateTime :=
  if d.month = 12 then ⟨d.year + 1, 1, 1, 0, 0, 0⟩ else ⟨d.year, d.month + 1, 1, 0, 0, 0⟩

/-! ### Claim C4 — schema creation on a fresh store -/

/-- Claim C4 (code bug evidence): on a completely fresh store,
`_create_tables` does not succeed — the migration probe finds no
`amount` column (the table is absent entirely) and then selects from the
nonexistent `categorization_rules` table, raising an operational error
before any table has been created. -/
theorem c4_theorem :
    createTables freshSchema = Except.error "no such table: categorization_rules" := rfl

/-! ### Claim C5 — add/list round trip -/

/-- A valid transaction whose `ignored` flag is true. -/
def c5T : Transaction :=
  ⟨none, ⟨2023, 5, 10, 12, 0, 0⟩, 5, "coffee", "Food", "expense", true⟩

/-- Claim C5, counterexample: adding the transaction `c5T` (which has
`ignored = true`) to an empty store and listing all transactions yields
no row equal to `c5T` in every field except the id — the stored row has
`ignored = false`. -/
theorem c5_counterexample :
    (get_transactions (add_transaction emptyDB c5T).1).all
      (fun row => !(eqExceptId row c5T)) = true := by decide

/-- Claim C5 as amended: for every store and every transaction `t`,
`add_transaction t` followed by `get_transactions` yields a row that
agrees with `t` on date, amount, description, category and transaction
type, and whose `ignored` flag is false (the INSERT omits the `ignored`
column, so the input flag is not persisted). -/
theorem c5_theorem (db : DB) (t : Transaction) :
    ∃ row ∈ get_transactions (add_transaction db t).1,
      row.date = t.date ∧ row.amount = t.amount ∧ row.description = t.description ∧
      row.category = t.category ∧ row.transaction_type = t.transaction_type ∧
      row.ignored = false := by
  refine ⟨{ t with id := some db.nextId, ignored := false }, ?_, rfl, rfl, rfl, rfl, rfl, rfl⟩
  rw [get_transactions, List.mem_insertionSort]
  simp [add_transaction]

/-! ### Claim C10 — the ignored flag is never persisted by add_transaction -/

/-- Claim C10: for every well-formed store and every input transaction,
the row that `add_transaction` stores (identified by the returned row
id) comes back from `get_transactions` with `ignored = false`, whatever
the input's flag was — the INSERT omits the `ignored` column and the
schema default 0 applies. -/
theorem c10_theorem (db : DB) (t : Transaction) (hwf : WF db) :
    ∀ row ∈ get_transactions (add_transaction db t).1,
      row.id = some ((add_transaction db t).2) → row.ignored = false := by
  intro row hrow hid
  rw [get_transactions, List.mem_insertionSort] at hrow
  simp only [add_transaction, List.mem_append, List.mem_singleton] at hrow
  rcases hrow with h | h
  · exact absurd (hwf row h db.nextId hid) (lt_irrefl _)
  · rw [h]

/-- Input transaction with `ignored = true` for the C10 witness. -/
def c10T : Transaction :=
  ⟨none, ⟨2024, 7, 4, 8, 30, 0⟩, 42, "fireworks", "Fun", "expense", true⟩

/-- The row c10T comes back as: id 1 assigned, ignored forced to false. -/
def c10Row : Transaction :=
  ⟨some 1, ⟨2024, 7, 4, 8, 30, 0⟩, 42, "fireworks", "Fun", "expense", false⟩

/-- Claim C10, witness: instantiating `c10_theorem` on an empty store
and an input with `ignored = true`. -/
theorem c10_witness :
    c10Row ∈ get_transactions (add_transaction emptyDB c10T).1 ∧ c10Row.ignored = false :=
  ⟨by decide,
   c10_theorem emptyDB c10T (fun t ht => absurd ht (List.not_mem_nil t)) c10Row
     (by decide) (by decide)⟩

/-! ### Claim C9 — deleting a category leaves transactions (and in-use names) intact -/

/-- A transaction whose category is the whitespace-only string " ". -/
def c9T : Transaction := ⟨some 1, ⟨2023, 1, 1, 0, 0, 0⟩, 5, "misc", " ", "expense", false⟩

def c9DB : DB := ⟨[c9T], [" "], [], 2⟩

/-- Claim C9, counterexample: with the whitespace-only category name
" " in use by a stored transaction, `delete_category " "` leaves the
transactions unchanged but `get_all_categories` no longer includes " ":
the listing filters out blank names, so the claim's second half fails
for this name. -/
theorem c9_counterexample :
    (delete_category c9DB " ").transactions = c9DB.transactions ∧
    c9T ∈ c9DB.transactions ∧ c9T.category = " " ∧
    " " ∉ get_all_categories (delete_category c9DB " ") := by
  refine ⟨rfl, by decide, rfl, ?_⟩
  rw [get_all_categories, List.mem_insertionSort]
  decide

/-- Claim C9 as amended: `delete_category` never touches the
transactions table, and `get_all_categories` afterwards still includes
the deleted name as long as some transaction uses it and the name
contains a non-whitespace character (blank names are filtered out of
the listing). -/
theorem c9_theorem (db : DB) (name : String) :
    (delete_category db name).transactions = db.transactions ∧
    ((∃ t ∈ db.transactions, t.category = name) → pyNonBlank name = true →
      name ∈ get_all_categories (delete_category db name)) := by
  refine ⟨rfl, ?_⟩
  rintro ⟨t, ht, hcat⟩ hnb
  rw [get_all_categories, List.mem_insertionSort, List.mem_dedup, List.mem_filter]
  refine ⟨?_, hnb⟩
  rw [List.mem_append]
  right
  rw [List.mem_map]
  exact ⟨t, ht, hcat⟩

/-- Transaction and store for the C9 witness. -/
def c9WT : Transaction :=
  ⟨some 1, ⟨2023, 1, 1, 0, 0, 0⟩, 5, "grocery run", "Food", "expense", false⟩

def c9WDB : DB := ⟨[c9WT], ["Food"], [], 2⟩

/-- Claim C9, witness: instantiating `c9_theorem` on a store in which a
transaction uses the category "Food". -/
theorem c9_witness :
    "Food" ∈ get_all_categories (delete_category c9WDB "Food") :=
  (c9_theorem c9WDB "Food").2 ⟨c9WT, by decide, rfl⟩ (by decide)

/-! ### Claim C2 — bulk rule application run twice -/

/-- Re-stepping a stepped transaction is a no-op producing the same
match flag: the rule test reads only the description and amount, which
`applyStep` never changes. -/
theorem aux_applyStep_idem (rules : List Rule) (t : Transaction) :
    applyStep rules ((applyStep rules t).1) = applyStep rules t := by
  cases h : (List.insertionSort ruleOrder rules).find? (fun r => ruleMatchesTrans r t) with
  | none => simp [applyStep, h]
  | some r =>
      have hsame : (fun r2 => ruleMatchesTrans r2 ({ t with category := r.category })) =
          (fun r2 => ruleMatchesTrans r2 t) := rfl
      simp [applyStep, h, hsame]

/-- One transaction already carrying the category its only matching rule
assigns. -/
def c2T : Transaction :=
  ⟨some 1, ⟨2024, 1, 5, 0, 0, 0⟩, 10, "Netflix Monthly", "Subscriptions", "expense", false⟩

def c2Rule : Rule := ⟨"netflix", "Subscriptions", none, none, 0⟩

def c2DB : DB := ⟨[c2T], ["Subscriptions"], [c2Rule], 2⟩

/-- Claim C2, counterexample: on `c2DB` the first bulk application
changes nothing (the lone transaction already has the rule's category),
yet the second run still reports 1 update, not 0 — the code updates
unconditionally on every rule match instead of only when the resolved
category differs. -/
theorem c2_counterexample :
    (apply_rules_to_existing_transactions c2DB).1 = c2DB ∧
    (apply_rules_to_existing_transactions
      ((apply_rules_to_existing_transactions c2DB).1)).2 = 1 := by
  constructor <;> decide

/-- Claim C2 as amended: the bulk application is idempotent on the store
state — a second run with no intervening changes recreates exactly the
state the first run left — but its reported update count does not drop
to 0: the second run reports exactly the first run's count, the number
of transactions matched by some rule, because a match always rewrites
the category even when it is unchanged. -/
theorem c2_theorem (db : DB) :
    (apply_rules_to_existing_transactions
        ((apply_rules_to_existing_transactions db).1)).1 =
      (apply_rules_to_existing_transactions db).1 ∧
    (apply_rules_to_existing_transactions
        ((apply_rules_to_existing_transactions db).1)).2 =
      (apply_rules_to_existing_transactions db).2 := by
  constructor <;>
    simp [apply_rules_to_existing_transactions, List.map_map, Function.comp_def,
      aux_applyStep_idem]

/-! ### Claim C8 — update by attribute match -/

/-- Claim C8: `update_transaction_by_attributes` fails with the
"No matching transaction found" error whenever no stored row matches the
(date, amount, description, transaction_type) tuple; whenever it
succeeds, at least one row matched, every matching row now carries the
new category, every other row is untouched, and the new category name is
registered in the categories table. -/
theorem c8_theorem (db : DB) (d : DateTime) (a : ℚ) (desc cat ty : String) :
    ((∀ t ∈ db.transactions, matchTuple d a desc ty t = false) →
      update_transaction_by_attributes db d a desc cat ty =
        Except.error "No matching transaction found") ∧
    (∀ db2, update_transaction_by_attributes db d a desc cat ty = Except.ok db2 →
      (∃ t ∈ db.transactions, matchTuple d a desc ty t = true) ∧
      cat ∈ db2.categories ∧
      ∀ t ∈ db2.transactions,
        (matchTuple d a desc ty t = true → t.category = cat) ∧
        (matchTuple d a desc ty t = false → t ∈ db.transactions)) := by
  constructor
  · intro hall
    have hfil : db.transactions.filter (matchTuple d a desc ty) = [] := by
      rw [List.filter_eq_nil_iff]
      intro t ht
      simp [hall t ht]
    simp [update_transaction_by_attributes, hfil]
  · intro db2 hok
    by_cases hlen : (db.transactions.filter (matchTuple d a desc ty)).length = 0
    · simp [update_transaction_by_attributes, hlen] at hok
    · have hne : db.transactions.filter (matchTuple d a desc ty) ≠ [] := by
        intro hh
        exact hlen (by rw [hh]; rfl)
      obtain ⟨t0, ht0⟩ := List.exists_mem_of_ne_nil _ hne
      rw [List.mem_filter] at ht0
      have hdb2 : db2 = { db with
          categories := insertOrIgnoreCategory db.categories cat,
          transactions := db.transactions.map (fun t =>
            if matchTuple d a desc ty t then { t with category := cat } else t) } := by
        simp only [update_transaction_by_attributes, if_neg hlen, Except.ok.injEq] at hok
        exact hok.symm
      subst hdb2
      refine ⟨⟨t0, ht0.1, ht0.2⟩, ?_, ?_⟩
      · by_cases h : cat ∈ db.categories
        · simp [insertOrIgnoreCategory, h]
        · simp [insertOrIgnoreCategory, h]
      · intro t ht
        simp only [List.mem_map] at ht
        obtain ⟨s, hs, hst⟩ := ht
        by_cases hm : matchTuple d a desc ty s = true
        · constructor
          · intro _
            rw [← hst, if_pos hm]
          · intro hf
            have hmt : matchTuple d a desc ty t = true := by
              rw [← hst, if_pos hm]
              exact hm
            rw [hmt] at hf
            cases hf
        · rw [if_neg hm] at hst
          subst hst
          constructor
          · intro hmt
            exact absurd hmt hm
          · intro _
            exact hs

/-- Claim C8, witness: instantiating `c8_theorem` on an empty store —
zero rows match, so the call fails with the NotFound-style error. -/
theorem c8_witness :
    update_transaction_by_attributes emptyDB ⟨2024, 1, 1, 0, 0, 0⟩ 5 "x" "Food" "expense" =
      Except.error "No matching transaction found" :=
  (c8_theorem emptyDB ⟨2024, 1, 1, 0, 0, 0⟩ 5 "x" "Food" "expense").1
    (fun t ht => absurd ht (List.not_mem_nil t))

/-! ### Claim C7 — year-over-year percent change when the prior year is zero -/

/-- A current-year expense of 100 with no prior-year spending. -/
def c7Tx : Transaction :=
  ⟨some 1, ⟨2025, 3, 1, 0, 0, 0⟩, 100, "groceries", "Food", "expense", false⟩

/-- Claim C7, counterexample: with a prior-year grand total of exactly 0
and a current-year total of 100, the overall summary label shows the
percentage 0 — not "N/A" as the claim requires for the overall total. -/
theorem c7_counterexample :
    calcGrandTotal [] = 0 ∧
    totalPctChange [] [c7Tx] = PctDisplay.pct 0 ∧
    totalPctChange [] [c7Tx] ≠ PctDisplay.na := by
  refine ⟨rfl, ?_, ?_⟩
  · simp [totalPctChange, calcGrandTotal]
  · simp [totalPctChange, calcGrandTotal]

/-- Claim C7 as amended: no division is reached when the prior-year
figure is zero, and the zero case is reported per cell as follows — a
per-category percent change is "N/A" whenever that category's
prior-year total is exactly zero, while the overall summary percent
change falls back to the number 0 (rendered "+0.0%"), not to "N/A". -/
theorem c7_theorem (lastTxs thisTxs : List Transaction) (c : String) :
    (calcCategoryTotal lastTxs c = 0 →
      categoryPctChange lastTxs thisTxs c = PctDisplay.na) ∧
    (calcGrandTotal lastTxs = 0 →
      totalPctChange lastTxs thisTxs = PctDisplay.pct 0) := by
  constructor
  · intro h
    simp [categoryPctChange, h]
  · intro h
    simp [totalPctChange, h]

/-- Claim C7, witness: instantiating `c7_theorem` at an empty prior year
and a 100-unit current-year expense. -/
theorem c7_witness :
    categoryPctChange [] [c7Tx] "Food" = PctDisplay.na ∧
    totalPctChange [] [c7Tx] = PctDisplay.pct 0 :=
  ⟨(c7_theorem [] [c7Tx] "Food").1 rfl, (c7_theorem [] [c7Tx] "Food").2 rfl⟩

/-! ### Claim C6 — the month window -/

/-- A transaction at the first instant of December 2023. -/
def c6Row : Transaction :=
  ⟨some 1, ⟨2023, 12, 1, 0, 0, 0⟩, 20, "rent", "Rent", "expense", false⟩

def c6DB : DB := ⟨[c6Row], [], [], 2⟩

/-- A query date in the same month that carries a time of day. -/
def c6Query : DateTime := ⟨2023, 12, 15, 10, 30, 0⟩

/-- Claim C6, counterexample: the query date 2023-12-15T10:30:00 carries
a time of day, and the stored row dated 2023-12-01T00:00:00 lies inside
the claimed half-open window [first instant of December, first instant
of January) — yet `get_transactions_for_month` does not return it,
because `date.replace(day=1)` keeps the query's 10:30:00 time of day in
the lower bound. -/
theorem c6_counterexample :
    dtKey (claimMonthStart c6Query) ≤ dtKey c6Row.date ∧
    dtKey c6Row.date < dtKey (claimMonthEnd c6Query) ∧
    c6Row ∈ c6DB.transactions ∧
    c6Row ∉ get_transactions_for_month c6DB c6Query := by
  refine ⟨by decide, by decide, by decide, by decide⟩

/-- Claim C6 as amended: for a query date at midnight (zero hour, minute
and second — in particular any pure calendar date), the month query
returns exactly the stored transactions whose date lies in the half-open
window [first instant of the month, first instant of the next month),
with December rolling into January of the next year, ordered by date
ascending. For query dates carrying a time of day both window bounds are
shifted by that time of day. -/
theorem c6_theorem (db : DB) (d : DateTime)
    (h1 : d.hour = 0) (h2 : d.minute = 0) (h3 : d.second = 0) :
    (∀ row, row ∈ get_transactions_for_month db d ↔
      (row ∈ db.transactions ∧
        dtKey (claimMonthStart d) ≤ dtKey row.date ∧
        dtKey row.date < dtKey (claimMonthEnd d))) ∧
    List.Sorted dateAsc (get_transactions_for_month db d) := by
  have hs : monthStart d = claimMonthStart d := by
    simp [monthStart, claimMonthStart, DateTime.mk.injEq, h1, h2, h3]
  have he : monthEnd d = claimMonthEnd d := by
    by_cases hm : d.month = 12 <;>
      simp [monthEnd, claimMonthEnd, hm, DateTime.mk.injEq, h1, h2, h3]
  constructor
  · intro row
    rw [get_transactions_for_month, List.mem_insertionSort, List.mem_filter]
    simp only [hs, he, Bool.and_eq_true, decide_eq_true_eq, and_assoc]
  · exact List.sorted_insertionSort dateAsc _

/-- Transactions on either side of the 2023 → 2024 year boundary. -/
def c6WA : Transaction :=
  ⟨some 1, ⟨2023, 12, 31, 0, 0, 0⟩, 50, "december rent", "Rent", "expense", false⟩

def c6WB : Transaction :=
  ⟨some 2, ⟨2024, 1, 1, 0, 0, 0⟩, 60, "january rent", "Rent", "expense", false⟩

def c6WDB : DB := ⟨[c6WA, c6WB], [], [], 3⟩

def c6WQuery : DateTime := ⟨2023, 12, 15, 0, 0, 0⟩

/-- Claim C6, witness: instantiating `c6_theorem` at the midnight query
date 2023-12-15 — the row dated 2023-12-31 is returned and the row dated
2024-01-01 is not, the December window rolling into January of 2024. -/
theorem c6_witness :
    c6WA ∈ get_transactions_for_month c6WDB c6WQuery ∧
    c6WB ∉ get_transactions_for_month c6WDB c6WQuery := by
  constructor
  · exact ((c6_theorem c6WDB c6WQuery rfl rfl rfl).1 c6WA).mpr
      ⟨by decide, by decide, by decide⟩
  · intro h
    have hx := ((c6_theorem c6WDB c6WQuery rfl rfl rfl).1 c6WB).mp h
    exact absurd hx.2.2 (by decide)

/-! ### Claim C1 — category resolution from the rule set -/

/-- In a list sorted by descending priority, the first element
satisfying a predicate has maximal priority among all elements
satisfying it. -/
theorem aux_find_first_max {p : Rule → Bool} :
    ∀ {l : List Rule} {r : Rule}, List.Sorted ruleOrder l → l.find? p = some r →
      ∀ r2 ∈ l, p r2 = true → r2.priority ≤ r.priority := by
  intro l
  induction l with
  | nil =>
      intro r _ hfind
      simp at hfind
  | cons a t ih =>
      intro r hsort hfind r2 hr2 hp2
      by_cases ha : p a = true
      · rw [List.find?_cons_of_pos _ ha] at hfind
        have hra : a = r := by injection hfind
        subst hra
        rcases List.mem_cons.mp hr2 with h2 | h2
        · subst h2
          exact le_refl _
        · exact (List.sorted_cons.mp hsort).1 r2 h2
      · rw [List.find?_cons_of_neg _ ha] at hfind
        rcases List.mem_cons.mp hr2 with h2 | h2
        · subst h2
          exact absurd hp2 ha
        · exact ih (List.sorted_cons.mp hsort).2 hfind r2 h2 hp2

/-- A rule constrained to amounts within 1 of 16. -/
def c1Rule : Rule := ⟨"netflix", "Subscriptions", some 16, some 1, 0⟩

def c1DB : DB := ⟨[], [], [c1Rule], 1⟩

/-- Claim C1, counterexample: the stored rule demands an amount within
tolerance 1 of 16, and the transaction amount 100 is far outside that
band, so the claimed resolver returns no match — but the code's
`auto_categorize_transaction` never consults rule amounts (its SQL
matches on the pattern alone, and the function does not even receive an
amount) and returns the rule's category anyway. -/
theorem c1_counterexample :
    resolveSpec c1DB.rules "NETFLIX" (some 100) = none ∧
    auto_categorize_transaction c1DB "NETFLIX" = some "Subscriptions" := by
  constructor
  · have hnum : ¬ (|(100 : ℚ) - 16| ≤ (1 : ℚ)) := by
      rw [abs_le]
      intro hc
      absurd hc.2
      norm_num
    show (List.find? _ (List.insertionSort ruleOrder [c1Rule])).map Rule.category = none
    rw [show List.insertionSort ruleOrder [c1Rule] = [c1Rule] from rfl]
    rw [List.find?_cons_of_neg]
    · rfl
    · show ¬ ((likeMatches "NETFLIX" "netflix" && decide (|(100 : ℚ) - 16| ≤ (1 : ℚ))) = true)
      simp [hnum]
  · decide

/-- Claim C1 as amended: `auto_categorize_transaction` receives only the
description and ignores rule amount constraints entirely — it returns no
category exactly when no stored rule's pattern occurs case-insensitively
in the description, and any category it returns belongs to a
pattern-matching rule of maximal priority among the pattern-matching
rules, whatever amounts those rules carry. -/
theorem c1_theorem (db : DB) (description : String) :
    (auto_categorize_transaction db description = none ↔
      ∀ r ∈ db.rules, likeMatches description r.pattern = false) ∧
    (∀ c, auto_categorize_transaction db description = some c →
      ∃ r ∈ db.rules, likeMatches description r.pattern = true ∧ r.category = c ∧
        ∀ r2 ∈ db.rules, likeMatches description r2.pattern = true →
          r2.priority ≤ r.priority) := by
  constructor
  · rw [auto_categorize_transaction, Option.map_eq_none', List.find?_eq_none]
    constructor
    · intro h r hr
      have hx := h r ((List.mem_insertionSort ruleOrder).mpr hr)
      simpa using hx
    · intro h x hx
      have hx2 := h x ((List.mem_insertionSort ruleOrder).mp hx)
      simp [hx2]
  · intro c hc
    rw [auto_categorize_transaction, Option.map_eq_some'] at hc
    obtain ⟨r, hfind, hcat⟩ := hc
    have hmem : r ∈ db.rules :=
      (List.mem_insertionSort ruleOrder).mp (List.mem_of_find?_eq_some hfind)
    have hp := List.find?_some hfind
    refine ⟨r, hmem, hp, hcat, ?_⟩
    intro r2 hr2 hp2
    exact aux_find_first_max (List.sorted_insertionSort ruleOrder db.rules) hfind r2
      ((List.mem_insertionSort ruleOrder).mpr hr2) hp2

def c1WRule : Rule := ⟨"netflix", "Subscriptions", none, none, 0⟩

def c1WDB : DB := ⟨[], [], [c1WRule], 1⟩

/-- Claim C1, witness: instantiating `c1_theorem` on a rule set whose
only pattern does not occur in the description — the resolver reports no
match. -/
theorem c1_witness : auto_categorize_transaction c1WDB "COFFEE SHOP" = none :=
  (c1_theorem c1WDB "COFFEE SHOP").1.mpr (by decide)
